import Mathlib

/-!
Verification of the anki-mcp-server repository: a shallow embedding of the
MCP protocol layer (`ankiMcpServer.ts`), the CLI argument parsing
(`index.ts`), and — modelled from the specification where the source files
are not part of the staged repository — the AnkiConnect client retry logic,
the note-type schema cache, tool-argument validation, batch note creation
and deck creation.
-/

section CliArgs

/-- The one CLI flag read by `parseArgs` in `index.ts`. -/
def ANKI_KEY_FLAG : String := "--anki-connect-key"

/-- `trim` on the character list of a string: leading and trailing
whitespace removed. -/
def trimChars (l : List Char) : List Char :=
  ((l.dropWhile Char.isWhitespace).reverse.dropWhile Char.isWhitespace).reverse

/-- One quote-stripping step of `index.ts` lines 20-25: if the value starts
and ends with the quote character, remove the first and last character
(`slice(1, -1)`) and trim again; otherwise leave it unchanged. -/
def stripLayer (quote : Char) (l : List Char) : List Char :=
  if l.head? = some quote ∧ l.getLast? = some quote then trimChars l.tail.dropLast else l

/-- The cleaning applied to the flag's value in `index.ts` lines 18-25:
trim, strip one layer of surrounding double quotes (then trim), then strip
one layer of surrounding single quotes (then trim).  Both strips are
independent `if`s, so a double-quoted single-quoted value loses both
layers. -/
def cleanKey (s : String) : String :=
  ⟨stripLayer '\'' (stripLayer '"' (trimChars s.data))⟩

/-- The index loop of `parseArgs` (`index.ts` lines 14-28): when the current
argument is the flag and a next argument exists, record the cleaned next
argument and skip it; any other argument is ignored. -/
def parseArgsLoop : List String → Option String → Option String
  | [], acc => acc
  | [_], acc => acc
  | a :: b :: rest, acc =>
    if a = ANKI_KEY_FLAG then parseArgsLoop rest (some (cleanKey b))
    else parseArgsLoop (b :: rest) acc

/-- `parseArgs` from `index.ts`: the optional AnkiConnect API key extracted
from the argument vector (after `argv.slice(2)`). -/
def parseArgs (args : List String) : Option String :=
  parseArgsLoop args none

/-- The cleaning C9 describes, following the spec's words: whitespace
trimmed and ONE layer of surrounding matching double or single quotes
removed, then trimmed again. -/
def cleanKeySpec (s : String) : String :=
  let t := trimChars s.data
  if t.head? = some '"' ∧ t.getLast? = some '"' then ⟨trimChars t.tail.dropLast⟩
  else if t.head? = some '\'' ∧ t.getLast? = some '\'' then ⟨trimChars t.tail.dropLast⟩
  else ⟨t⟩

theorem parseArgsLoop_cons_of_ne (a : String) (t : List String) (acc : Option String)
    (h : a ≠ ANKI_KEY_FLAG) : parseArgsLoop (a :: t) acc = parseArgsLoop t acc := by
  cases t with
  | nil => rfl
  | cons b rest => simp [parseArgsLoop, h]

theorem parseArgsLoop_of_not_mem (l : List String) (acc : Option String)
    (h : ANKI_KEY_FLAG ∉ l) : parseArgsLoop l acc = acc := by
  induction l with
  | nil => rfl
  | cons a t ih =>
    have ha : a ≠ ANKI_KEY_FLAG := fun e => h (e ▸ List.mem_cons_self a t)
    rw [parseArgsLoop_cons_of_ne a t acc ha]
    exact ih (fun hm => h (List.mem_cons_of_mem a hm))

theorem parseArgsLoop_append_of_not_mem (pre l : List String) (acc : Option String)
    (h : ANKI_KEY_FLAG ∉ pre) : parseArgsLoop (pre ++ l) acc = parseArgsLoop l acc := by
  induction pre with
  | nil => rfl
  | cons a t ih =>
    have ha : a ≠ ANKI_KEY_FLAG := fun e => h (e ▸ List.mem_cons_self a t)
    rw [List.cons_append, parseArgsLoop_cons_of_ne a (t ++ l) acc ha]
    exact ih (fun hm => h (List.mem_cons_of_mem a hm))

end CliArgs

section ErrorTaxonomy

/-- The three AnkiConnect client error kinds of the error taxonomy
(spec section 7; thrown by the `AnkiClient` in `utils.ts`). -/
inductive AnkiError where
  | connectionError (message : String)
  | timeoutError (message : String)
  | apiError (message : String)
deriving DecidableEq, Repr

/-- The kind of an `AnkiError`, forgetting its message. -/
inductive AnkiErrorKind where
  | connection
  | timeout
  | api
deriving DecidableEq, Repr

def AnkiError.kind : AnkiError → AnkiErrorKind
  | .connectionError _ => .connection
  | .timeoutError _ => .timeout
  | .apiError _ => .api

/-- MCP protocol error codes used by the server (`ErrorCode` of the MCP
SDK, restricted to the codes this server constructs). -/
inductive ErrorCode where
  | internalError
  | invalidParams
  | methodNotFound
  | invalidRequest
deriving DecidableEq, Repr

/-- `McpError` of the MCP SDK: an error code and a human-readable message. -/
structure McpError where
  code : ErrorCode
  message : String
deriving DecidableEq, Repr

/-- The fixed message thrown by `AnkiMcpServer.checkConnection`
(`ankiMcpServer.ts` lines 98-101). -/
def CONNECTION_ERROR_MESSAGE : String :=
  "Failed to connect to Anki. Please make sure Anki is running and the AnkiConnect plugin is enabled."

/-- `AnkiMcpServer.checkConnection` (`ankiMcpServer.ts` lines 94-103): any
failure of the client probe is caught and re-thrown as
`McpError(ErrorCode.InternalError, <fixed message>)`; the caught error's
own kind and message are discarded. -/
def wrapConnectionFailure : Except AnkiError Unit → Except McpError Unit
  | .ok _ => .ok ()
  | .error _ => .error ⟨.internalError, CONNECTION_ERROR_MESSAGE⟩

end ErrorTaxonomy

section RetryClient

/-- What the backend does on one attempt of a client call: respond with a
result, fail transiently at the network level, or respond with an
API-level error string. -/
inductive AttemptOutcome where
  | success (value : String)
  | transient
  | apiFailure (message : String)
deriving DecidableEq, Repr

/-- Modelled from the spec: the retry policy's fixed attempt bound
("bounded attempt count (small, fixed)", spec section 4.1; `utils.ts` is
not among the staged sources). -/
def MAX_ATTEMPTS : Nat := 3

/-- Modelled from the spec: the initial backoff delay in milliseconds. -/
def INITIAL_BACKOFF_MS : Nat := 1000

/-- Modelled from the spec: "backoff delay grows geometrically between
attempts" — the delay slept before retry number `n + 1`. -/
def backoffDelay (n : Nat) : Nat := INITIAL_BACKOFF_MS * 2 ^ n

/-- Modelled from the spec: the retry loop of `AnkiClient.invoke`
(`utils.ts` is not among the staged sources).  `behavior i` is the outcome
of attempt `i` (0-based).  Returns the overall result, the number of
attempts observed, and the list of backoff delays slept.  A transient
failure is retried while retries remain; an API-level error is surfaced
immediately without retrying; when retries are exhausted a
`ConnectionError` is surfaced. -/
def invokeFrom (behavior : Nat → AttemptOutcome) :
    Nat → Nat → Except AnkiError String × Nat × List Nat
  | retriesLeft, attempt =>
    match behavior attempt with
    | .success v => (.ok v, attempt + 1, [])
    | .apiFailure m => (.error (.apiError m), attempt + 1, [])
    | .transient =>
      match retriesLeft with
      | 0 => (.error (.connectionError "Failed to connect to AnkiConnect"), attempt + 1, [])
      | r + 1 =>
        let rest := invokeFrom behavior r (attempt + 1)
        (rest.1, rest.2.1, backoffDelay attempt :: rest.2.2)

/-- Modelled from the spec: `AnkiClient.invoke` viewed through the
per-attempt outcomes `behavior`. -/
def ankiInvoke (behavior : Nat → AttemptOutcome) : Except AnkiError String × Nat × List Nat :=
  invokeFrom behavior (MAX_ATTEMPTS - 1) 0

theorem invokeFrom_attempts_le (behavior : Nat → AttemptOutcome) :
    ∀ retriesLeft attempt, (invokeFrom behavior retriesLeft attempt).2.1 ≤ attempt + retriesLeft + 1 := by
  intro retriesLeft
  induction retriesLeft with
  | zero =>
    intro attempt
    cases h : behavior attempt <;> simp [invokeFrom, h]
  | succ r ih =>
    intro attempt
    have h2 := ih (attempt + 1)
    cases h : behavior attempt <;> simp [invokeFrom, h]
    all_goals omega

end RetryClient

section SchemaCache

/-- `NoteTypeSchema` (spec section 3): name, ordered field names, card
templates (front/back strings), optional CSS. -/
structure NoteTypeSchema where
  name : String
  fields : List String
  templates : List (String × String)
  css : Option String
deriving DecidableEq, Repr

/-- A cached value: one schema (per-model key) or the bulk list of all
schemas (sentinel key). -/
inductive CacheValue where
  | one (schema : NoteTypeSchema)
  | many (schemas : List NoteTypeSchema)
deriving DecidableEq, Repr

/-- Cache keys: the sentinel "all note types with schemas" key, or a
per-model-name key.  The sentinel is a distinct constructor, so no model
name collides with it. -/
inductive CacheKey where
  | allWithSchemas
  | model (name : String)
deriving DecidableEq, Repr

/-- `CacheEntry` (spec section 3): a value and the timestamp (ms) at which
it was fetched. -/
structure CacheEntry where
  value : CacheValue
  fetchedAt : Nat
deriving DecidableEq, Repr

/-- Modelled from the spec: the in-memory schema cache of the resource
handler (`mcpResource.ts` is not among the staged sources), as a map from
keys to entries. -/
def Cache : Type := CacheKey → Option CacheEntry

/-- The empty cache. -/
def emptyCache : Cache := fun _ => none

/-- TTL of 5 minutes, in milliseconds (spec section 3). -/
def TTL_MS : Nat := 5 * 60 * 1000

/-- Modelled from the spec: `put(key, value)` stores the value with a
fresh timestamp `now`, unconditionally overwriting any prior entry. -/
def cachePut (c : Cache) (k : CacheKey) (v : CacheValue) (now : Nat) : Cache :=
  fun q => if q = k then some ⟨v, now⟩ else c q

/-- Modelled from the spec: `get(key)` at clock `now` returns the cached
value if present and unexpired (`now - fetchedAt < TTL`); an expired or
missing entry is treated as absent. -/
def cacheGet (c : Cache) (k : CacheKey) (now : Nat) : Option CacheValue :=
  match c k with
  | some e => if now - e.fetchedAt < TTL_MS then some e.value else none
  | none => none

end SchemaCache

section BatchCreate

/-- A note specification as accepted by note creation (spec section 3):
type name, target deck, field-name→value mapping, optional tags. -/
structure NoteSpec where
  type : String
  deck : String
  fields : List (String × String)
  tags : List String
deriving DecidableEq, Repr

/-- Modelled from the spec: the required content fields per note type
("Basic or Cloze", README tool list; `mcpTools.ts` is not among the staged
sources). -/
def noteRequiredFields : String → Option (List String)
  | "Basic" => some ["Front", "Back"]
  | "Cloze" => some ["Text"]
  | _ => none

/-- Modelled from the spec: validation of one note specification — the
note type must be known, the deck named, and every required field present.
Returns the failure reason for a malformed specification. -/
def validateNote (n : NoteSpec) : Except String Unit :=
  match noteRequiredFields n.type with
  | none => .error ("Unknown note type: " ++ n.type)
  | some required =>
    if n.deck = "" then .error "Missing deck name"
    else
      match required.filter (fun f => !n.fields.any (fun p => p.1 = f)) with
      | [] => .ok ()
      | f :: _ => .error ("Missing required field: " ++ f)

/-- Whether a note specification is malformed (its validation fails). -/
def isMalformed (n : NoteSpec) : Bool :=
  match validateNote n with
  | .ok _ => false
  | .error _ => true

/-- Modelled from the spec: the identifier the remote `addNote` call
reports for a successfully created note (abstracted as a function of the
specification; its value is not constrained by the spec). -/
def createdNoteId (n : NoteSpec) : Nat :=
  n.deck.length + n.fields.length

/-- Whether a per-item batch result is a created identifier. -/
def isCreated (r : Except String Nat) : Bool :=
  match r with
  | .ok _ => true
  | .error _ => false

/-- Modelled from the spec: `batch_create_notes` — each specification is
processed independently in order; a valid one yields its created
identifier, a malformed one yields its failure reason; the batch is never
aborted and the outcome is reported per item. -/
def batchCreateNotes (specs : List NoteSpec) : List (Except String Nat) :=
  specs.map fun s =>
    match validateNote s with
    | .ok _ => .ok (createdNoteId s)
    | .error m => .error m

end BatchCreate

section ToolHandler

/-- The Anki application state visible through AnkiConnect, as far as the
modelled operations need it: the deck names and the note-type schemas. -/
structure AnkiState where
  decks : List String
  models : List NoteTypeSchema
deriving DecidableEq, Repr

/-- Modelled from the spec: the tool surface (README tool list) with each
tool's required input fields (spec section 4.4: "declared input schema
(required/optional fields, types)"; `mcpTools.ts` is not among the staged
sources). -/
def TOOL_REQUIRED_FIELDS : List (String × List String) :=
  [("list_decks", []),
   ("create_deck", ["name"]),
   ("create_note", ["type", "deck", "fields"]),
   ("batch_create_notes", ["notes"]),
   ("search_notes", ["query"]),
   ("get_note_info", ["noteId"]),
   ("update_note", ["id", "fields"]),
   ("delete_note", ["noteId"]),
   ("list_note_types", []),
   ("create_note_type", ["name", "fields", "templates"]),
   ("get_note_type_info", ["modelName"]),
   ("gui_selected_notes", []),
   ("gui_current_card", [])]

/-- Modelled from the spec: the remote execution of a validated tool call,
abstracted to a structured textual result. -/
def runTool (st : AnkiState) (name : String) (args : List (String × String)) : String :=
  name ++ " executed with " ++ toString args.length ++ " arguments against " ++
    toString st.decks.length ++ " decks"

/-- Modelled from the spec: the Tool Handler's `executeTool` — arguments
are validated against the tool's declared required fields before any
remote call; a missing required field fails fast with an
`InvalidParams`-class error.  The second component counts the remote
(network) calls issued. -/
def executeTool (st : AnkiState) (name : String) (args : List (String × String)) :
    Except McpError String × Nat :=
  match TOOL_REQUIRED_FIELDS.lookup name with
  | none => (.error ⟨.methodNotFound, "Unknown tool: " ++ name⟩, 0)
  | some required =>
    match required.filter (fun f => !args.any (fun p => p.1 = f)) with
    | missing :: _ => (.error ⟨.invalidParams, "Missing required field: " ++ missing⟩, 0)
    | [] => (.ok (runTool st name args), 1)

/-- Modelled from the spec: deck creation against the remote API, which is
itself idempotent for deck creation (spec section 4.1: "deck already
exists" style responses are treated as success) — an existing deck is left
as is and the call still succeeds. -/
def ankiCreateDeck (decks : List String) (name : String) :
    List String × Except AnkiError String :=
  if name ∈ decks then (decks, .ok name) else (name :: decks, .ok name)

/-- Whether a client call result is a success. -/
def clientOk {α : Type} (r : Except AnkiError α) : Bool :=
  match r with
  | .ok _ => true
  | .error _ => false

end ToolHandler

section ProtocolServer

/-- The reachability of the AnkiConnect backend as the connectivity probe
sees it: responding, unreachable, or not answering within the deadline. -/
inductive BackendStatus where
  | up
  | unreachable
  | timingOut
deriving DecidableEq, Repr

/-- Modelled from the spec: `AnkiClient.checkConnection` (`utils.ts` is
not among the staged sources) — succeeds iff the endpoint responds within
the deadline, otherwise fails with `ConnectionError` (unreachable) or
`TimeoutError` (no response within the deadline). -/
def ankiCheckConnection : BackendStatus → Except AnkiError Unit
  | .up => .ok ()
  | .unreachable => .error (.connectionError "ECONNREFUSED")
  | .timingOut => .error (.timeoutError "Request timed out")

/-- `AnkiMcpServer.checkConnection` applied to the probe: the probe result
wrapped at the protocol boundary (`ankiMcpServer.ts` lines 94-103). -/
def serverCheckConnection (status : BackendStatus) : Except McpError Unit :=
  wrapConnectionFailure (ankiCheckConnection status)

/-- The inbound MCP requests routed by `setupHandlers`
(`ankiMcpServer.ts` lines 63-89). -/
inductive McpRequest where
  | listResources
  | listResourceTemplates
  | readResource (uri : String)
  | listTools
  | callTool (name : String) (args : List (String × String))
deriving DecidableEq, Repr

/-- The server's successful responses, by request kind. -/
inductive McpResponse where
  | resourceList (uris : List String)
  | templateList (uris : List String)
  | resourceContent (text : String)
  | toolList (names : List String)
  | toolResult (text : String)
deriving DecidableEq, Repr

/-- The fixed resources enumerated by the resource handler (README
resource list; spec section 4.3). -/
def RESOURCE_URIS : List String :=
  ["anki://decks/all", "anki://note-types/all", "anki://note-types/all-with-schemas"]

/-- The one resource URI template (README resource list). -/
def RESOURCE_TEMPLATE_URIS : List String :=
  ["anki://note-types/{modelName}"]

/-- Modelled from the spec: one schema rendered for a resource read. -/
def renderSchema (m : NoteTypeSchema) : String :=
  m.name ++ ": " ++ String.intercalate ", " m.fields

/-- Modelled from the spec: the resource handler's `readResource`
(`mcpResource.ts` is not among the staged sources) — the three fixed URIs
resolve to deck/model listings, the per-model template resolves a known
model name to its schema, and an unresolvable name fails with a
`NotFound`-class error. -/
def readResource (st : AnkiState) (uri : String) : Except McpError String :=
  if uri = "anki://decks/all" then .ok (String.intercalate ", " st.decks)
  else if uri = "anki://note-types/all" then
    .ok (String.intercalate ", " (st.models.map (fun m => m.name)))
  else if uri = "anki://note-types/all-with-schemas" then
    .ok (String.intercalate "; " (st.models.map renderSchema))
  else
    match st.models.find? (fun m => "anki://note-types/" ++ m.name = uri) with
    | some m => .ok (renderSchema m)
    | none => .error ⟨.invalidRequest, "Unknown resource: " ++ uri⟩

/-- The tool names the server advertises. -/
def TOOL_NAMES : List String := TOOL_REQUIRED_FIELDS.map (fun p => p.1)

/-- The response of the tool-listing handler, served without any
connectivity check (`ankiMcpServer.ts` lines 80-83). -/
def listToolsResponse : McpResponse := .toolList TOOL_NAMES

/-- The request routing of `setupHandlers` (`ankiMcpServer.ts` lines
63-89): every handler except tool listing first awaits
`checkConnection()`, whose failure aborts the request; tool listing
returns the tool schema unconditionally. -/
def handleRequest (status : BackendStatus) (st : AnkiState) :
    McpRequest → Except McpError McpResponse
  | .listTools => .ok listToolsResponse
  | .listResources =>
    match serverCheckConnection status with
    | .error e => .error e
    | .ok _ => .ok (.resourceList RESOURCE_URIS)
  | .listResourceTemplates =>
    match serverCheckConnection status with
    | .error e => .error e
    | .ok _ => .ok (.templateList RESOURCE_TEMPLATE_URIS)
  | .readResource uri =>
    match serverCheckConnection status with
    | .error e => .error e
    | .ok _ =>
      match readResource st uri with
      | .ok text => .ok (.resourceContent text)
      | .error e => .error e
  | .callTool name args =>
    match serverCheckConnection status with
    | .error e => .error e
    | .ok _ =>
      match (executeTool st name args).1 with
      | .ok text => .ok (.toolResult text)
      | .error e => .error e

end ProtocolServer




section Claims

/-- C9: the CLI reads exactly one optional flag, `--anki-connect-key`.
The claim as stated — the resulting API key equals the value with
whitespace trimmed and ONE layer of surrounding matching quotes removed —
fails: the source strips a double-quote layer and then, independently, a
single-quote layer, so a double-quoted single-quoted value loses both
layers.  At the value `"'a'"` the code yields `a` while the one-layer
description yields `'a'`. -/
theorem c9_one_layer_counterexample :
    parseArgs ["--anki-connect-key", "\"'a'\""] = some "a" ∧
    cleanKeySpec "\"'a'\"" = "'a'" ∧ ("a" : String) ≠ "'a'" :=
  ⟨by decide, by decide, by decide⟩

/-- C9 (amended): for every argument vector in which the flag occurs once
followed by a value, the resulting API key equals the value trimmed, with
one layer of surrounding matching double quotes removed (then trimmed),
followed by one layer of surrounding matching single quotes removed (then
trimmed); no other flag affects the result. -/
theorem c9_flag_value_cleaned (pre : List String) (v : String) (post : List String)
    (hpre : ANKI_KEY_FLAG ∉ pre) (hpost : ANKI_KEY_FLAG ∉ post) :
    parseArgs (pre ++ ANKI_KEY_FLAG :: v :: post) = some (cleanKey v) := by
  unfold parseArgs
  rw [parseArgsLoop_append_of_not_mem pre (ANKI_KEY_FLAG :: v :: post) none hpre]
  rw [show parseArgsLoop (ANKI_KEY_FLAG :: v :: post) none
        = parseArgsLoop post (some (cleanKey v)) by simp [parseArgsLoop]]
  exact parseArgsLoop_of_not_mem post (some (cleanKey v)) hpost

/-- C9 witness: a concrete vector with an unrelated flag before and an
unrelated argument after; the quoted value is stripped and trimmed. -/
theorem c9_flag_value_cleaned_witness :
    parseArgs ["--verbose", "--anki-connect-key", "\" secret \"", "extra"] = some "secret" := by
  have h := c9_flag_value_cleaned ["--verbose"] "\" secret \"" ["extra"] (by decide) (by decide)
  have hc : cleanKey "\" secret \"" = "secret" := by decide
  rw [hc] at h
  exact h

/-- C10: the claim — every argument vector whose final element is the
dangling flag yields an undefined API key — fails when the flag also
occurs earlier with a value: `["--anki-connect-key", "v",
"--anki-connect-key"]` ends in a value-less flag, yet the key is `v`. -/
theorem c10_dangling_counterexample :
    (["--anki-connect-key", "v", "--anki-connect-key"] : List String).getLast? =
      some ANKI_KEY_FLAG ∧
    parseArgs ["--anki-connect-key", "v", "--anki-connect-key"] = some "v" ∧
    some "v" ≠ (none : Option String) :=
  ⟨by decide, by decide, by decide⟩

/-- C10 (amended): a dangling final `--anki-connect-key` is ignored — it
neither errors nor consumes a non-existent value — and when the flag does
not occur earlier in the vector the API key is undefined. -/
theorem c10_dangling_flag_ignored (l : List String) (h : ANKI_KEY_FLAG ∉ l) :
    parseArgs (l ++ [ANKI_KEY_FLAG]) = none := by
  unfold parseArgs
  rw [parseArgsLoop_append_of_not_mem l [ANKI_KEY_FLAG] none h]
  rfl

/-- C10 witness: two unrelated arguments then the dangling flag. -/
theorem c10_dangling_flag_ignored_witness :
    parseArgs ["a", "b", "--anki-connect-key"] = none :=
  c10_dangling_flag_ignored ["a", "b"] (by decide)

/-- C6: the claim — the protocol boundary preserves the distinction
between the three client error kinds in the message text — fails at the
connectivity-check boundary (`ankiMcpServer.ts` lines 94-103): a
`ConnectionError` and a `TimeoutError`, though of different kinds, are
re-surfaced as literally identical `McpError`s with one fixed message. -/
theorem c6_distinction_counterexample :
    AnkiError.kind (.connectionError "ECONNREFUSED") ≠
      AnkiError.kind (.timeoutError "Request timed out") ∧
    wrapConnectionFailure (.error (.connectionError "ECONNREFUSED")) =
      wrapConnectionFailure (.error (.timeoutError "Request timed out")) :=
  ⟨by decide, rfl⟩

/-- C6 (amended): whenever the AnkiConnect client fails with any of the
three error kinds, the connectivity-check protocol boundary catches it and
re-surfaces it as the single generic internal-error class carrying a
human-readable (non-empty, fixed) message; the distinction between the
kinds is NOT preserved in that message text. -/
theorem c6_wrap_internal_error (e : AnkiError) :
    wrapConnectionFailure (.error e) = .error ⟨.internalError, CONNECTION_ERROR_MESSAGE⟩ ∧
    CONNECTION_ERROR_MESSAGE ≠ "" :=
  ⟨rfl, by decide⟩

/-- C1: every inbound MCP request except tool listing performs the
connectivity probe before dispatch (`ankiMcpServer.ts` lines 63-89):
tool listing succeeds whatever the backend's state, and when the probe
fails every other request — resource listing, resource-template listing,
resource read, tool execution — fails with the connection-failure
internal error and nothing else is dispatched. -/
theorem c1_connectivity_preflight :
    (∀ status st, handleRequest status st .listTools = .ok listToolsResponse) ∧
    (∀ status st req, clientOk (ankiCheckConnection status) = false → req ≠ .listTools →
      handleRequest status st req = .error ⟨.internalError, CONNECTION_ERROR_MESSAGE⟩) := by
  constructor
  · intro status st
    rfl
  · intro status st req hs hr
    cases status with
    | up => simp [ankiCheckConnection, clientOk] at hs
    | unreachable => cases req <;> first | exact absurd rfl hr | rfl
    | timingOut => cases req <;> first | exact absurd rfl hr | rfl

/-- C1 witness: with the backend unreachable, tool listing succeeds while
a resource listing and a tool call fail with the connection error. -/
theorem c1_connectivity_preflight_witness :
    handleRequest .unreachable ⟨[], []⟩ .listTools = .ok listToolsResponse ∧
    handleRequest .unreachable ⟨[], []⟩ .listResources =
      .error ⟨.internalError, CONNECTION_ERROR_MESSAGE⟩ ∧
    handleRequest .unreachable ⟨[], []⟩ (.callTool "list_decks" []) =
      .error ⟨.internalError, CONNECTION_ERROR_MESSAGE⟩ :=
  ⟨c1_connectivity_preflight.1 .unreachable ⟨[], []⟩,
   c1_connectivity_preflight.2 .unreachable ⟨[], []⟩ .listResources (by decide) (by decide),
   c1_connectivity_preflight.2 .unreachable ⟨[], []⟩ (.callTool "list_decks" []) (by decide)
     (by decide)⟩

/-- C2: an invoke whose network request fails transiently exactly once and
then succeeds returns success with exactly 2 attempts observed (and one
backoff sleep); all-transient failures surface `ConnectionError` after the
fixed attempt bound with geometrically growing backoff delays; the attempt
count never exceeds the fixed bound; consecutive backoff delays grow by a
factor of 2. -/
theorem c2_retry_policy :
    (∀ behavior v, behavior 0 = .transient → behavior 1 = .success v →
      ankiInvoke behavior = (.ok v, 2, [backoffDelay 0])) ∧
    (∀ behavior, (∀ i, behavior i = .transient) →
      ankiInvoke behavior = (.error (.connectionError "Failed to connect to AnkiConnect"),
        MAX_ATTEMPTS, [backoffDelay 0, backoffDelay 1])) ∧
    (∀ behavior, (ankiInvoke behavior).2.1 ≤ MAX_ATTEMPTS) ∧
    (∀ n, backoffDelay (n + 1) = 2 * backoffDelay n) := by
  refine ⟨?_, ?_, ?_, ?_⟩
  · intro behavior v h0 h1
    simp [ankiInvoke, MAX_ATTEMPTS, invokeFrom, h0, h1]
  · intro behavior h
    simp [ankiInvoke, MAX_ATTEMPTS, invokeFrom, h 0, h 1, h 2]
  · intro behavior
    have h := invokeFrom_attempts_le behavior (MAX_ATTEMPTS - 1) 0
    simpa [ankiInvoke, MAX_ATTEMPTS] using h
  · intro n
    simp [backoffDelay, pow_succ]
    ring

/-- C2 witness: the behavior that fails transiently on attempt 0 and
succeeds on every later attempt yields success with 2 attempts. -/
theorem c2_retry_policy_witness :
    ankiInvoke (fun i => if i = 0 then .transient else .success "ok") =
      (.ok "ok", 2, [backoffDelay 0]) :=
  c2_retry_policy.1 (fun i => if i = 0 then .transient else .success "ok") "ok" rfl rfl

/-- C3: a `get` immediately following a `put` of the same key returns the
stored value unchanged; a `get` at a clock at least TTL past an entry's
timestamp treats the entry as absent; `put` stores its value with a fresh
timestamp, unconditionally overwriting any prior entry. -/
theorem c3_cache_ttl :
    (∀ c k v now, cacheGet (cachePut c k v now) k now = some v) ∧
    (∀ c k now e, c k = some e → TTL_MS ≤ now - e.fetchedAt → cacheGet c k now = none) ∧
    (∀ c k v now, cachePut c k v now k = some ⟨v, now⟩) := by
  refine ⟨?_, ?_, ?_⟩
  · intro c k v now
    simp [cacheGet, cachePut, TTL_MS]
  · intro c k now e hc ht
    simp [cacheGet, hc, if_neg (Nat.not_lt.mpr ht)]
  · intro c k v now
    simp [cachePut]

/-- C3 witness: a put-then-get at the same clock returns the value; the
same entry read TTL later is absent. -/
theorem c3_cache_ttl_witness :
    cacheGet (cachePut emptyCache (CacheKey.model "Basic") (CacheValue.many []) 0)
      (CacheKey.model "Basic") 0 = some (CacheValue.many []) ∧
    cacheGet (cachePut emptyCache (CacheKey.model "Basic") (CacheValue.many []) 0)
      (CacheKey.model "Basic") TTL_MS = none :=
  ⟨c3_cache_ttl.1 emptyCache (CacheKey.model "Basic") (CacheValue.many []) 0,
   c3_cache_ttl.2.1 (cachePut emptyCache (CacheKey.model "Basic") (CacheValue.many []) 0)
     (CacheKey.model "Basic") TTL_MS ⟨CacheValue.many [], 0⟩ (by decide) (by decide)⟩

/-- C8: a `put` on one cache key leaves every other key's `get` unchanged;
in particular the bulk "all note types with schemas" entry and the
per-model entries are independent in both directions. -/
theorem c8_cache_keys_independent (c : Cache) (k q : CacheKey) (v : CacheValue)
    (now t : Nat) (h : q ≠ k) :
    cacheGet (cachePut c k v now) q t = cacheGet c q t := by
  simp [cacheGet, cachePut, h]

/-- C8 witness: populating the per-model entry for "Basic" does not make
the bulk entry present, and populating the bulk entry does not make the
"Basic" entry present. -/
theorem c8_cache_keys_independent_witness :
    cacheGet (cachePut emptyCache (CacheKey.model "Basic") (CacheValue.many []) 5)
      CacheKey.allWithSchemas 5 = none ∧
    cacheGet (cachePut emptyCache CacheKey.allWithSchemas (CacheValue.many []) 5)
      (CacheKey.model "Basic") 5 = none := by
  constructor
  · rw [c8_cache_keys_independent emptyCache (CacheKey.model "Basic") CacheKey.allWithSchemas
      (CacheValue.many []) 5 5 (by decide)]
    rfl
  · rw [c8_cache_keys_independent emptyCache CacheKey.allWithSchemas (CacheKey.model "Basic")
      (CacheValue.many []) 5 5 (by decide)]
    rfl

/-- C4: batch creation over a list of note specifications of which exactly
one is malformed reports one result per item in order (the batch is never
aborted or collapsed): N results in total, N-1 created identifiers and 1
failure reason. -/
theorem c4_batch_partial_success (specs : List NoteSpec)
    (h : specs.countP (fun s => isMalformed s) = 1) :
    (batchCreateNotes specs).length = specs.length ∧
    (batchCreateNotes specs).countP (fun r => isCreated r) = specs.length - 1 ∧
    (batchCreateNotes specs).countP (fun r => !isCreated r) = 1 := by
  have hlen : (batchCreateNotes specs).length = specs.length := by
    simp [batchCreateNotes]
  have herr : (batchCreateNotes specs).countP (fun r => !isCreated r)
      = specs.countP (fun s => isMalformed s) := by
    unfold batchCreateNotes
    rw [List.countP_map]
    apply List.countP_congr
    intro s _
    cases hv : validateNote s <;> simp [Function.comp, isCreated, isMalformed, hv]
  have hok : (batchCreateNotes specs).countP (fun r => isCreated r)
      = specs.countP (fun s => !isMalformed s) := by
    unfold batchCreateNotes
    rw [List.countP_map]
    apply List.countP_congr
    intro s _
    cases hv : validateNote s <;> simp [Function.comp, isCreated, isMalformed, hv]
  have htot := List.length_eq_countP_add_countP (p := fun s => isMalformed s) specs
  have hco : specs.countP (fun s => !isMalformed s)
      = specs.countP (fun a => ¬isMalformed a) := by
    apply List.countP_congr
    intro s _
    simp
  refine ⟨hlen, ?_, ?_⟩
  · rw [hok, hco]
    omega
  · rw [herr, h]

/-- C4 witness: three specifications, the middle one missing its required
"Back" field, give 3 results: 2 created identifiers and 1 failure. -/
theorem c4_batch_partial_success_witness :
    (batchCreateNotes
      [⟨"Basic", "Default", [("Front", "q1"), ("Back", "a1")], []⟩,
       ⟨"Basic", "Default", [("Front", "q2")], []⟩,
       ⟨"Cloze", "Default", [("Text", "t3")], []⟩]).length = 3 ∧
    (batchCreateNotes
      [⟨"Basic", "Default", [("Front", "q1"), ("Back", "a1")], []⟩,
       ⟨"Basic", "Default", [("Front", "q2")], []⟩,
       ⟨"Cloze", "Default", [("Text", "t3")], []⟩]).countP (fun r => isCreated r) = 2 ∧
    (batchCreateNotes
      [⟨"Basic", "Default", [("Front", "q1"), ("Back", "a1")], []⟩,
       ⟨"Basic", "Default", [("Front", "q2")], []⟩,
       ⟨"Cloze", "Default", [("Text", "t3")], []⟩]).countP (fun r => !isCreated r) = 1 :=
  c4_batch_partial_success
    [⟨"Basic", "Default", [("Front", "q1"), ("Back", "a1")], []⟩,
     ⟨"Basic", "Default", [("Front", "q2")], []⟩,
     ⟨"Cloze", "Default", [("Text", "t3")], []⟩] (by decide)

/-- C5: a tool call whose arguments miss a required field declared in the
tool's input schema fails with an `InvalidParams`-class error and issues
no remote call (the network-call count is 0). -/
theorem c5_invalid_params_before_network (st : AnkiState) (name : String)
    (args : List (String × String)) (required : List String) (f : String)
    (hlk : TOOL_REQUIRED_FIELDS.lookup name = some required)
    (hf : f ∈ required) (habs : ∀ p ∈ args, ¬p.1 = f) :
    (executeTool st name args).2 = 0 ∧
    ∃ m, (executeTool st name args).1 = .error ⟨.invalidParams, m⟩ := by
  have hany : args.any (fun p => p.1 = f) = false :=
    List.any_eq_false.mpr (by intro p hp; simpa using habs p hp)
  have hfmem : f ∈ required.filter (fun g => !args.any (fun p => p.1 = g)) :=
    List.mem_filter.mpr ⟨hf, by simp [hany]⟩
  cases hlist : required.filter (fun g => !args.any (fun p => p.1 = g)) with
  | nil =>
    rw [hlist] at hfmem
    exact absurd hfmem (List.not_mem_nil f)
  | cons m ms =>
    constructor
    · simp [executeTool, hlk, hlist]
    · exact ⟨"Missing required field: " ++ m, by simp [executeTool, hlk, hlist]⟩

/-- C5 witness: `create_deck` called with no arguments misses its required
"name" field, fails with `InvalidParams` and makes no network call. -/
theorem c5_invalid_params_before_network_witness :
    (executeTool ⟨[], []⟩ "create_deck" []).2 = 0 ∧
    ∃ m, (executeTool ⟨[], []⟩ "create_deck" []).1 = .error ⟨.invalidParams, m⟩ :=
  c5_invalid_params_before_network ⟨[], []⟩ "create_deck" [] ["name"] "name"
    (by decide) (by decide) (by simp)

/-- C7: deck creation is idempotent — a second creation with the same name
succeeds (no error), and deck creation against a state already containing
the deck succeeds and leaves the state unchanged: it never fails merely
because the deck exists. -/
theorem c7_create_deck_idempotent :
    (∀ decks name, clientOk (ankiCreateDeck (ankiCreateDeck decks name).1 name).2 = true) ∧
    (∀ decks name, name ∈ decks → ankiCreateDeck decks name = (decks, .ok name)) := by
  constructor
  · intro decks name
    by_cases h : name ∈ decks <;> simp [ankiCreateDeck, h, clientOk]
  · intro decks name h
    simp [ankiCreateDeck, h]

/-- C7 witness: creating "Default" twice from scratch succeeds both times,
and creating it over a state that already has it returns success and the
unchanged state. -/
theorem c7_create_deck_idempotent_witness :
    clientOk (ankiCreateDeck (ankiCreateDeck [] "Default").1 "Default").2 = true ∧
    ankiCreateDeck ["Default"] "Default" = (["Default"], .ok "Default") :=
  ⟨c7_create_deck_idempotent.1 [] "Default",
   c7_create_deck_idempotent.2 ["Default"] "Default" (by decide)⟩

end Claims
